import Mathlib

/-!
# Mail organizer: verification of the notification-driven processing pipeline

A shallow embedding of the core logic of the mail-organizer service:

* `dedupShouldProcess`, `process_notification_job` — the in-memory
  deduplication cache and the background notification job (src/server.py,
  `process_notification_job`).
* `webhook` — the webhook gateway endpoint (src/server.py, `webhook`).
* `get_folder_name_for_category`, `route` — the routing decisions taken in
  `process_emails` (main.py).
* `get_folder_id` — find-or-create folder materialization
  (src/graph.py, `GraphClient._get_folder_id`), with the Graph-side folder
  store modelled as explicit state.
* `create_todo_task` — To-Do task payload construction including due-date and
  reminder handling (src/graph.py, `GraphClient.create_todo_task`); the
  `datetime.strptime` / `timedelta` arithmetic is modelled by an explicit
  proleptic Gregorian calendar with the same minimum date 0001-01-01.
* `create_subscription_with_retry` — the subscription-creation retry loop
  (main.py, `main`, steps 4).
* `analyze_email` — the three-stage LLM pipeline (src/llm.py,
  `LLMProcessor.analyze_email`); the remote model calls and `json.loads`
  are modelled as an oracle supplied as an argument.

Modelling conventions: Python strings are lists of characters (`PyStr`);
`time.time()` timestamps are rationals; a fallible external call is
`Except Unit _` (`.error` = a raised exception) or `Option`; Python
truthiness of a string/`None` value is an explicit test against `none`/`[]`.
-/

namespace MailOrganizer

/-- Python strings are modelled as lists of characters. -/
abbrev PyStr := List Char

/-! ## Deduplication cache (src/server.py, `process_notification_job`) -/

/-- The module-level dict `processed_cache`: message id ↦ timestamp at which
the id was first marked as processed.  Modelled as an association list;
the code only ever inserts a key that is absent, so keys stay unique. -/
abbrev DedupCache := List (String × ℚ)

/-- Purge step of the dedup logic: drop every cache entry whose age exceeds
300 seconds (`keys_to_remove = [k for k, t in ... if current_time - t > 300]`
followed by deletion). An entry is kept iff `now - t ≤ 300`. -/
def purgeCache (now : ℚ) (cache : DedupCache) : DedupCache :=
  cache.filter (fun e => decide (now - e.2 ≤ 300))

/-- The dedup check of `process_notification_job` (src/server.py lines
58-72): purge expired entries, then skip (`false`) if the id is present,
otherwise mark it with the current timestamp and proceed (`true`). -/
def dedupShouldProcess (cache : DedupCache) (messageId : String) (now : ℚ) :
    Bool × DedupCache :=
  let purged := purgeCache now cache
  if (purged.lookup messageId).isSome then (false, purged)
  else (true, purged ++ [(messageId, now)])

/-- Observable outcome of one run of the background job. -/
inductive JobOutcome
  | processed
  | processingError
  | skippedDuplicate
  | missingId
deriving DecidableEq

/-- The background job `process_notification_job` (src/server.py): extract
the resource id; if missing, return early; otherwise run the dedup check and,
on a fresh id, invoke `process_emails`.  Any exception raised by
`process_emails` is caught by the surrounding `try`/`except`, which logs it
and leaves the cache as is; `processingFails` says whether that call raises. -/
def process_notification_job (cache : DedupCache) (resourceId : Option String)
    (now : ℚ) (processingFails : Bool) : JobOutcome × DedupCache :=
  match resourceId with
  | none => (.missingId, cache)
  | some m =>
    let r := dedupShouldProcess cache m now
    if r.1 then ((if processingFails then .processingError else .processed), r.2)
    else (.skippedDuplicate, r.2)

/-! ## Webhook gateway (src/server.py, `webhook`) -/

/-- One record of the `value` array of a Graph notification payload.
`clientState` is `notification.get("clientState")` (`none` when absent),
`resourceId` is `notification.get("resourceData", {}).get("id")`. -/
structure MsNotification where
  clientState : Option String
  resourceId : Option String
deriving DecidableEq

/-- A parsed webhook JSON body; `value = none` models a body without a
`"value"` key. -/
structure WebhookPayload where
  value : Option (List MsNotification)
deriving DecidableEq

/-- The HTTP response of the webhook endpoint, together with the background
jobs dispatched while handling the request. -/
inductive WebhookResponse
  | validationEcho (token : String)
  | accepted (jobs : List MsNotification)
  | serverError
deriving DecidableEq

/-- Notification-intake branch of the webhook handler: a body that fails to
parse yields a 500; otherwise each record of `value` whose `clientState`
differs from the configured secret is skipped (`continue`), and every
authenticated record is handed to `background_tasks.add_task`; the handler
then returns 202 with the dispatched jobs. -/
def webhookNotificationPath (body : Except Unit WebhookPayload)
    (secret : String) : WebhookResponse :=
  match body with
  | .error _ => .serverError
  | .ok payload =>
    match payload.value with
    | none => .accepted []
    | some notifs =>
      .accepted (notifs.filter (fun n => n.clientState == some secret))

/-- The `POST /webhook` handler (src/server.py): if a truthy
`validationToken` query parameter is present, echo it back as a plain-text
200; otherwise handle the notification body. -/
def webhook (validationToken : Option String)
    (body : Except Unit WebhookPayload) (secret : String) : WebhookResponse :=
  match validationToken with
  | some tok =>
    if tok = "" then webhookNotificationPath body secret
    else .validationEcho tok
  | none => webhookNotificationPath body secret

/-! ## Category → folder routing (main.py) -/

/-- One entry of `config['categories']` (config-provided, read-only). -/
structure CategoryRule where
  name : PyStr
  description : PyStr
  folder_name : PyStr
deriving DecidableEq

/-- The `for cat in config.get('categories', [])` loop of
`get_folder_name_for_category`: return the `folder_name` of the first rule
whose `name` equals the category, else `None`. -/
def lookupCategoryFolder (categoryName : PyStr) :
    List CategoryRule → Option PyStr
  | [] => none
  | c :: rest =>
    if c.name = categoryName then some c.folder_name
    else lookupCategoryFolder categoryName rest

/-- `get_folder_name_for_category` (main.py): `if not category_name: return
None` (which also catches the empty string, by Python truthiness), then the
exact-name scan over the rules. -/
def get_folder_name_for_category (categoryName : Option PyStr)
    (categories : List CategoryRule) : Option PyStr :=
  match categoryName with
  | none => none
  | some s => if s = [] then none else lookupCategoryFolder s categories

/-- Python's `str.split('/')`: split at every slash, keeping empty
segments; the result is always non-empty. -/
def splitSlash : PyStr → List PyStr
  | [] => [[]]
  | c :: rest =>
    match splitSlash rest with
    | [] => [[]]
    | seg :: segs =>
      if c = '/' then [] :: seg :: segs else (c :: seg) :: segs

/-- `folder_name.split('/')[-1]`: the leaf segment after the last slash. -/
def lastSegment (s : PyStr) : PyStr := ((splitSlash s).getLast?).getD []

/-- The structured analysis result (spec §3 `AnalysisResult`), the typed view
of the JSON object consumed by `process_emails`. -/
structure AnalysisResult where
  category : Option PyStr
  is_actionable : Bool
  task_title : Option PyStr
  due_date : Option PyStr
  summary : PyStr
deriving DecidableEq

/-- The task handed to `client.create_todo_task` by `process_emails`. -/
structure TaskSpec where
  title : PyStr
  content : PyStr
  list_name : Option PyStr
  due_date : Option PyStr
deriving DecidableEq

/-- The routing decision produced by steps 5-6 of `process_emails`:
the move target (if any) and the task to create (if any). -/
structure RoutingDecision where
  moveTo : Option PyStr
  task : Option TaskSpec
deriving DecidableEq

/-- `f"Follow up: {subject}"`, the fallback task title. -/
def followUpTitle (subject : PyStr) : PyStr := ("Follow up: ").data ++ subject

/-- Steps 5-6 of `process_emails` (main.py lines 96-124) as a pure function
of the analysis result, the category rules and the subject:
`folder_name = get_folder_name_for_category(...)`; `if folder_name:` move,
`else: folder_name = None`; then, if actionable, build the task with
`title = task_title if task_title else f"Follow up: {subject}"`,
`content = f"Source Email: {subject}\nSummary: {summary}"`, and
`list_name = folder_name.split('/')[-1] if folder_name else None`. -/
def route (analysis : AnalysisResult) (categories : List CategoryRule)
    (subject : PyStr) : RoutingDecision :=
  let folderName0 := get_folder_name_for_category analysis.category categories
  let folderName : Option PyStr :=
    match folderName0 with
    | some f => if f = [] then none else some f
    | none => none
  let task : Option TaskSpec :=
    if analysis.is_actionable then
      some
        { title :=
            match analysis.task_title with
            | some t => if t = [] then followUpTitle subject else t
            | none => followUpTitle subject
          content := ("Source Email: ").data ++ subject ++
            ("\nSummary: ").data ++ analysis.summary
          list_name := folderName.map lastSegment
          due_date := analysis.due_date }
    else none
  { moveTo := folderName, task := task }

/-! ## Folder materialization (src/graph.py, `GraphClient._get_folder_id`)

The Graph mailbox folder hierarchy is modelled as explicit state: a list of
folders (id, parent id, display name) plus a fresh-id counter.  HTTP calls
are modelled as succeeding; `_find_child_folder` returns the first child of
the given parent with the given display name, `_create_child_folder`
appends a fresh folder. -/

/-- One mail folder on the Graph side. -/
structure MailFolder where
  fid : Nat
  parent : Nat
  name : PyStr
deriving DecidableEq

/-- The Graph-side folder store. -/
structure MailboxState where
  folders : List MailFolder
  nextId : Nat
deriving DecidableEq

/-- The well-known root `msgfolderroot`. -/
def rootFolderId : Nat := 0

/-- `_find_child_folder`: `$filter displayName eq name` under a parent;
the Graph service returns the matching children, the code takes the first. -/
def findChildFolder (s : MailboxState) (parentId : Nat) (name : PyStr) :
    Option Nat :=
  (s.folders.find? (fun f =>
    decide (f.parent = parentId) && decide (f.name = name))).map (fun f => f.fid)

/-- `_create_child_folder`: POST a new child folder; the service assigns a
fresh id and records it. -/
def createChildFolder (s : MailboxState) (parentId : Nat) (name : PyStr) :
    Nat × MailboxState :=
  (s.nextId, ⟨s.folders ++ [⟨s.nextId, parentId, name⟩], s.nextId + 1⟩)

/-- Result of resolving a folder path: the resolved folder id, the folder
store afterwards, and how many create calls were issued along the way. -/
structure FolderResolution where
  folderId : Nat
  state : MailboxState
  createCalls : Nat
deriving DecidableEq

/-- The `for part in parts` loop of `_get_folder_id`: look each segment up
among the children of the current folder and create it only when absent. -/
def getFolderIdAux (s : MailboxState) (cur : Nat) :
    List PyStr → FolderResolution
  | [] => ⟨cur, s, 0⟩
  | part :: rest =>
    match findChildFolder s cur part with
    | some fid => getFolderIdAux s fid rest
    | none =>
      let c := createChildFolder s cur part
      let r := getFolderIdAux c.2 c.1 rest
      ⟨r.folderId, r.state, r.createCalls + 1⟩

/-- `_get_folder_id` (src/graph.py): split the slash-delimited path and
resolve it one segment at a time starting from `msgfolderroot`. -/
def get_folder_id (s : MailboxState) (path : PyStr) : FolderResolution :=
  getFolderIdAux s rootFolderId (splitSlash path)

/-- No two sibling folders share a display name. -/
def SiblingNamesUnique (s : MailboxState) : Prop :=
  s.folders.Pairwise (fun f g => ¬ (f.parent = g.parent ∧ f.name = g.name))

instance (s : MailboxState) : Decidable (SiblingNamesUnique s) := by
  unfold SiblingNamesUnique
  infer_instance

/-! ## To-Do task creation (src/graph.py, `GraphClient.create_todo_task`)

The due-date handling parses `due_date` with
`datetime.strptime(due_date, "%Y-%m-%d")`, subtracts `timedelta(days=2)`
and sets the reminder time-of-day to 14:00:00 UTC.  `strptime` is modelled
by `parseDateYMD` (exactly four year digits, one or two month/day digits,
calendar-valid, matching CPython's `_strptime` regexes over ASCII digits);
the `datetime` subtraction is modelled by `prevDay`, where stepping before
the Python minimum date 0001-01-01 is `none` (Python raises
`OverflowError`, which `except ValueError` does not catch). -/

/-- Gregorian leap year. -/
def isLeap (y : Nat) : Bool :=
  (y % 4 = 0 && !(y % 100 = 0)) || y % 400 = 0

/-- Days in a month of a given year. -/
def daysInMonth (y : Nat) : Nat → Nat
  | 2 => if isLeap y then 29 else 28
  | 4 => 30
  | 6 => 30
  | 9 => 30
  | 11 => 30
  | _ => 31

/-- A calendar date as parsed by `strptime("%Y-%m-%d")`. -/
structure YMDDate where
  year : Nat
  month : Nat
  day : Nat
deriving DecidableEq

/-- The date is a real calendar date with `year ≥ 1` (Python's range). -/
def ValidYMD (x : YMDDate) : Prop :=
  1 ≤ x.year ∧ 1 ≤ x.month ∧ x.month ≤ 12 ∧ 1 ≤ x.day ∧
    x.day ≤ daysInMonth x.year x.month

/-- The previous calendar day; `none` below the minimum date 0001-01-01. -/
def prevDay (x : YMDDate) : Option YMDDate :=
  if 1 < x.day then some ⟨x.year, x.month, x.day - 1⟩
  else if 1 < x.month then
    some ⟨x.year, x.month - 1, daysInMonth x.year (x.month - 1)⟩
  else if 1 < x.year then some ⟨x.year - 1, 12, 31⟩
  else none

/-- `date - timedelta(days=2)`; `none` models the `OverflowError`. -/
def subTwoDays (x : YMDDate) : Option YMDDate := (prevDay x).bind prevDay

/-- Numeric value of a string of ASCII digits. -/
def digitsToNat (s : PyStr) : Nat :=
  s.foldl (fun acc c => acc * 10 + (c.toNat - 48)) 0

/-- `datetime.strptime(s, "%Y-%m-%d")` as an `Option`: `none` is the
`ValueError` the caller catches. -/
def parseDateYMD (s : PyStr) : Option YMDDate :=
  match s.span (fun c => c.isDigit) with
  | (ys, '-' :: r2) =>
    match r2.span (fun c => c.isDigit) with
    | (ms, '-' :: r4) =>
      match r4.span (fun c => c.isDigit) with
      | (ds, r5) =>
        if ys.length = 4 ∧ 1 ≤ ms.length ∧ ms.length ≤ 2 ∧
            1 ≤ ds.length ∧ ds.length ≤ 2 ∧ r5 = [] ∧
            1 ≤ digitsToNat ys ∧ 1 ≤ digitsToNat ms ∧ digitsToNat ms ≤ 12 ∧
            1 ≤ digitsToNat ds ∧
            digitsToNat ds ≤ daysInMonth (digitsToNat ys) (digitsToNat ms)
        then some ⟨digitsToNat ys, digitsToNat ms, digitsToNat ds⟩ else none
    | _ => none
  | _ => none

/-- Decimal rendering of `n`, left-padded with zeros to the given width. -/
def padZeros (width n : Nat) : PyStr :=
  List.replicate (width - (toString n).length) '0' ++ (toString n).data

/-- `date.isoformat()` of the date part: `YYYY-MM-DD`. -/
def isoDate (x : YMDDate) : PyStr :=
  padZeros 4 x.year ++ ("-").data ++ padZeros 2 x.month ++ ("-").data ++
    padZeros 2 x.day

/-- A Graph `dateTimeTimeZone` value. -/
structure GraphDateTime where
  dateTime : PyStr
  timeZone : PyStr
deriving DecidableEq

/-- The JSON payload POSTed to create a To-Do task. -/
structure TodoTaskPayload where
  title : PyStr
  content : PyStr
  dueDateTime : Option GraphDateTime
  reminderDateTime : Option GraphDateTime
deriving DecidableEq

/-- Payload construction of `create_todo_task` (src/graph.py lines 259-291):
with a truthy due date, set `dueDateTime` to `f"{due_date}T12:00:00"` UTC
and try to schedule a reminder two days earlier at 14:00:00 UTC; a
`ValueError` from `strptime` only skips the reminder, while the
`OverflowError` from the `timedelta` subtraction propagates (`.error`),
aborting the task creation.  Task-list resolution and the HTTP POST are
modelled as succeeding, so `.ok` returns the payload that is POSTed. -/
def create_todo_task (title content : PyStr) (due_date : Option PyStr) :
    Except Unit TodoTaskPayload :=
  match due_date with
  | none => .ok ⟨title, content, none, none⟩
  | some d =>
    if d = [] then .ok ⟨title, content, none, none⟩
    else
      let due : GraphDateTime := ⟨d ++ ("T12:00:00").data, ("UTC").data⟩
      match parseDateYMD d with
      | none => .ok ⟨title, content, some due, none⟩
      | some dt =>
        match subTwoDays dt with
        | none => .error ()
        | some r =>
          .ok ⟨title, content, some due,
            some ⟨isoDate r ++ ("T14:00:00").data, ("UTC").data⟩⟩

/-- Days elapsed from 0001-01-01 to the first day of year `y` (years are
counted from 1; the two base cases make the recursion well-founded). -/
def daysBeforeYear : Nat → Nat
  | 0 => 0
  | 1 => 0
  | y + 2 => daysBeforeYear (y + 1) + (if isLeap (y + 1) then 366 else 365)

/-- Days elapsed from the first of January to the first day of month `m`
within year `y`. -/
def daysBeforeMonth (y : Nat) : Nat → Nat
  | 0 => 0
  | 1 => 0
  | m + 2 => daysBeforeMonth y (m + 1) + daysInMonth y (m + 1)

/-- Ordinal of a date (1 = 0001-01-01), the measure used to state
"`n` days before". -/
def dateOrdinal (x : YMDDate) : Nat :=
  daysBeforeYear x.year + daysBeforeMonth x.year x.month + x.day

/-! ## Subscription creation retry loop (main.py, `main`) -/

/-- A Graph subscription object, as returned by `create_subscription`. -/
structure Subscription where
  id : PyStr
deriving DecidableEq

/-- `max_retries = 5` (main.py). -/
def maxRetries : Nat := 5

/-- `base_delay = 5` seconds (main.py). -/
def baseDelay : Nat := 5

/-- Trace of one run of the retry loop: the subscription obtained (if any),
the `time.sleep` delays performed between attempts, and how many
`create_subscription` attempts were made. -/
structure RetryTrace where
  result : Option Subscription
  delays : List Nat
  attemptsMade : Nat
deriving DecidableEq

/-- The body of `for attempt in range(1, max_retries + 1)`: call
`create_subscription` (an exception is caught and treated like a falsy
result); break on success; otherwise, if more attempts remain, sleep
`base_delay * attempt` and continue; the `for`'s `else` just logs.  The
oracle gives the outcome of the attempt with the given number; `fuel` is
the number of loop iterations left. -/
def subscribeGo (oracle : Nat → Except Unit (Option Subscription)) :
    Nat → Nat → RetryTrace
  | _, 0 => ⟨none, [], 0⟩
  | attempt, fuel + 1 =>
    match oracle attempt with
    | .ok (some sub) => ⟨some sub, [], 1⟩
    | .ok none =>
      if attempt < maxRetries then
        let r := subscribeGo oracle (attempt + 1) fuel
        ⟨r.result, baseDelay * attempt :: r.delays, r.attemptsMade + 1⟩
      else ⟨none, [], 1⟩
    | .error _ =>
      if attempt < maxRetries then
        let r := subscribeGo oracle (attempt + 1) fuel
        ⟨r.result, baseDelay * attempt :: r.delays, r.attemptsMade + 1⟩
      else ⟨none, [], 1⟩

/-- The subscription-creation retry loop of `main` (main.py lines 213-234):
attempts numbered 1..5, linear backoff, never propagating an exception. -/
def create_subscription_with_retry
    (oracle : Nat → Except Unit (Option Subscription)) : RetryTrace :=
  subscribeGo oracle 1 maxRetries

/-! ## LLM analysis pipeline (src/llm.py, `LLMProcessor`) -/

/-- A JSON value, the result type of `json.loads`. -/
inductive JValue
  | null
  | bool (b : Bool)
  | num (n : Int)
  | str (s : String)
  | arr (elems : List JValue)
  | obj (fields : List (String × JValue))

/-- An image attachment as produced by `GraphClient.get_attachments`:
`name`, base64 `contentDetails` and `contentType`. -/
structure ImageAttachment where
  name : PyStr
  contentDetails : Option PyStr
  contentType : PyStr

/-- The external effects of the pipeline: the Groq cleanup call, the Gemini
image description (base64 decode + API call), the Groq classification call
(system prompt, user content ↦ raw response content), and `json.loads`
(`none` = the call raises).  `.ok` values stand for the already-`strip`ped
response text. -/
structure LLMOracle where
  cleanBody : PyStr → Except Unit PyStr
  describeImage : ImageAttachment → Except Unit PyStr
  classify : PyStr → PyStr → Except Unit PyStr
  loads : PyStr → Option JValue

/-- `_remove_signature_groq`: empty body short-circuits to `""`; any
exception from the model call falls back to the original body. -/
def removeSignature (o : LLMOracle) (body : PyStr) : PyStr :=
  if body = [] then []
  else
    match o.cleanBody body with
    | .ok s => s
    | .error _ => body

/-- `_describe_images_gemini`: skip attachments with falsy
`contentDetails`; a failing image yields its error placeholder without
aborting the batch. -/
def describeImages (o : LLMOracle) : List ImageAttachment → List PyStr
  | [] => []
  | img :: rest =>
    match img.contentDetails with
    | none => describeImages o rest
    | some b64 =>
      if b64 = [] then describeImages o rest
      else
        (match o.describeImage img with
         | .ok d =>
           ("[Image: ").data ++ img.name ++ ("] Description: ").data ++ d
         | .error _ =>
           ("[Image: ").data ++ img.name ++
             ("] (Error generating description)").data)
        :: describeImages o rest

/-- `sep.join(parts)`. -/
def joinSep (sep : PyStr) : List PyStr → PyStr
  | [] => []
  | [x] => x
  | x :: y :: rest => x ++ sep ++ joinSep sep (y :: rest)

/-- The marker appended when the cleaned body is truncated. -/
def truncationMarker : PyStr := ("\n...(truncated)...").data

/-- The marker appended when the assembled prompt is truncated. -/
def totalTruncationMarker : PyStr := ("\n...(truncated total)...").data

/-- `max_body_char = 15000`: a longer cleaned body is cut to its first
15000 characters with the visible marker appended. -/
def truncateBody (cleanedBody : PyStr) : PyStr :=
  if 15000 < cleanedBody.length then
    cleanedBody.take 15000 ++ truncationMarker
  else cleanedBody

/-- `full_content = f"Subject: {subject}\n\nBody:\n{cleaned_body}\n\nImage
Descriptions:\n{images_text}"`. -/
def assembleContent (subject body imagesText : PyStr) : PyStr :=
  ("Subject: ").data ++ subject ++ ("\n\nBody:\n").data ++ body ++
    ("\n\nImage Descriptions:\n").data ++ imagesText

/-- The `len(full_content) > 20000` double check. -/
def capTotal (full : PyStr) : PyStr :=
  if 20000 < full.length then full.take 20000 ++ totalTruncationMarker
  else full

/-- The user content submitted to the classification model: body
truncation, assembly, then the total cap (src/llm.py lines 198-211). -/
def buildFullContent (subject cleanedBody imagesText : PyStr) : PyStr :=
  capTotal (assembleContent subject (truncateBody cleanedBody) imagesText)

/-- `config['llm_instructions']`, which the code accepts either as a list
of lines or as an arbitrary value rendered with `str(...)`. -/
inductive InstructionsValue
  | ofList (items : List PyStr)
  | ofOther (rendered : PyStr)

/-- The configuration consumed by `LLMProcessor`. -/
structure LLMConfig where
  llm_instructions : InstructionsValue
  categories : List CategoryRule

/-- `"\n".join(instructions)` or `str(instructions)`. -/
def instructionsText : InstructionsValue → PyStr
  | .ofList items => joinSep ("\n").data items
  | .ofOther s => s

/-- `"\n".join(f"- {c['name']}: {c['description']}" for c in categories)`. -/
def categoriesText (categories : List CategoryRule) : PyStr :=
  joinSep ("\n").data
    (categories.map (fun c =>
      ("- ").data ++ c.name ++ (": ").data ++ c.description))

/-- `_build_classification_prompt`: the triple-quoted system prompt with the
user instructions and category definitions interpolated. -/
def buildClassificationPrompt (config : LLMConfig) : PyStr :=
  ("\n        ").data ++ instructionsText config.llm_instructions ++
  ("\n        \n        Allowed Categories:\n        ").data ++
  categoriesText config.categories ++
  ("\n        \n        Instructions:\n        - Analyze the email content and assign it to ONE of the allowed categories.\n        - If you are UNSURE or if the email does not fit any category clearly, set \"category\" to null. Do NOT guess.\n        - Determine if the email requires a manual action/task from the user.\n        \n        Return ONLY valid JSON.\n        Structure:\n        \x7b\n            \"category\": \"category_name_or_null\",\n            \"is_actionable\": boolean,\n            \"task_title\": \"string or null\",\n            \"due_date\": \"YYYY-MM-DD or null\",\n            \"summary\": \"short summary including insight from images if relevant\"\n        \x7d\n        ").data

/-- The safe fallback returned when the classification stage fails
(src/llm.py lines 232-241). -/
def fallbackAnalysis : JValue :=
  JValue.obj
    [(("category"), JValue.str ("Important")),
     (("is_actionable"), JValue.bool false),
     (("task_title"), JValue.null),
     (("due_date"), JValue.null),
     (("summary"), JValue.str ("Error analyzing email (LLM failure)."))]

/-- Stage 3 `try`/`except`: call the classification model, `json.loads` the
response content; any exception (network error or a `loads` failure on
malformed/non-JSON content) yields the fallback. -/
def classifyStage (o : LLMOracle) (systemPrompt userContent : PyStr) : JValue :=
  match o.classify systemPrompt userContent with
  | .error _ => fallbackAnalysis
  | .ok content =>
    match o.loads content with
    | none => fallbackAnalysis
    | some j => j

/-- `analyze_email` (src/llm.py): clean the body, describe the images, join
the descriptions with blank lines, truncate and assemble the user content,
then run the classification stage. -/
def analyze_email (o : LLMOracle) (config : LLMConfig) (subject body : PyStr)
    (images : List ImageAttachment) : JValue :=
  let cleaned := removeSignature o body
  let imagesText := joinSep ("\n\n").data (describeImages o images)
  let fullContent := buildFullContent subject cleaned imagesText
  classifyStage o (buildClassificationPrompt config) fullContent

/-- `v` is a JSON string or JSON null. -/
def isStrOrNull : JValue → Bool
  | .str _ => true
  | .null => true
  | _ => false

/-- `v` is a JSON boolean. -/
def isBoolJ : JValue → Bool
  | .bool _ => true
  | _ => false

/-- `v` is a JSON string. -/
def isStrJ : JValue → Bool
  | .str _ => true
  | _ => false

/-- The named field exists and satisfies the shape predicate. -/
def fieldIs (fields : List (String × JValue)) (key : String)
    (p : JValue → Bool) : Bool :=
  match fields.lookup key with
  | some v => p v
  | none => false

/-- Structural validity of an `AnalysisResult` JSON object (spec §3):
`category` string-or-null, `is_actionable` boolean, `task_title`
string-or-null, `due_date` string-or-null, `summary` string. -/
def structurallyValidAnalysis : JValue → Bool
  | .obj fields =>
    fieldIs fields ("category") isStrOrNull &&
    fieldIs fields ("is_actionable") isBoolJ &&
    fieldIs fields ("task_title") isStrOrNull &&
    fieldIs fields ("due_date") isStrOrNull &&
    fieldIs fields ("summary") isStrJ
  | _ => false

/-! ## Helper lemmas: association-list lookups and the purge step -/

lemma lookup_append_none (l₂ : DedupCache) (m : String) :
    ∀ l₁ : DedupCache, l₁.lookup m = none →
      (l₁ ++ l₂).lookup m = l₂.lookup m := by
  intro l₁
  induction l₁ with
  | nil => intro _; simp
  | cons e rest ih =>
    intro h
    obtain ⟨k, t⟩ := e
    by_cases hk : (m == k) = true
    · exfalso
      simp [List.lookup, hk] at h
    · rw [Bool.not_eq_true] at hk
      simp only [List.lookup, List.cons_append, hk] at h ⊢
      exact ih h

lemma lookup_purge_none (t : ℚ) (m : String) :
    ∀ l : DedupCache, l.lookup m = none → (purgeCache t l).lookup m = none := by
  intro l
  induction l with
  | nil => intro _; simp [purgeCache]
  | cons e rest ih =>
    intro h
    obtain ⟨k, ts⟩ := e
    by_cases hk : (m == k) = true
    · exfalso
      simp [List.lookup, hk] at h
    · rw [Bool.not_eq_true] at hk
      simp only [List.lookup, hk] at h
      by_cases hp : t - ts ≤ 300
      · simpa [purgeCache, List.filter, hp, List.lookup, hk]
          using ih h
      · simpa [purgeCache, List.filter, hp] using ih h

lemma dedup_fresh (cache : DedupCache) (m : String) (now : ℚ)
    (h : (purgeCache now cache).lookup m = none) :
    dedupShouldProcess cache m now = (true, purgeCache now cache ++ [(m, now)]) := by
  simp [dedupShouldProcess, h]

lemma dedup_dup (cache : DedupCache) (m : String) (now : ℚ)
    (h : (purgeCache now cache).lookup m ≠ none) :
    dedupShouldProcess cache m now = (false, purgeCache now cache) := by
  have hs : ((purgeCache now cache).lookup m).isSome = true :=
    Option.isSome_iff_ne_none.mpr h
  simp [dedupShouldProcess, hs]

lemma purge_append_keep (t₁ t₂ : ℚ) (l : DedupCache) (m : String)
    (h : t₂ - t₁ ≤ 300) :
    purgeCache t₂ (l ++ [(m, t₁)]) = purgeCache t₂ l ++ [(m, t₁)] := by
  have hd : decide (t₂ - t₁ ≤ 300) = true := decide_eq_true h
  simp only [purgeCache, List.filter_append, List.filter, hd]

lemma purge_append_drop (t₁ t₃ : ℚ) (l : DedupCache) (m : String)
    (h : ¬ t₃ - t₁ ≤ 300) :
    purgeCache t₃ (l ++ [(m, t₁)]) = purgeCache t₃ l := by
  have hd : decide (t₃ - t₁ ≤ 300) = false := decide_eq_false h
  simp only [purgeCache, List.filter_append, List.filter, hd, List.append_nil]

lemma dedup_second_call (cache : DedupCache) (m : String) (t₁ t₂ : ℚ)
    (h : (purgeCache t₁ cache).lookup m = none) (h₂ : t₂ - t₁ ≤ 300) :
    dedupShouldProcess (purgeCache t₁ cache ++ [(m, t₁)]) m t₂ =
      (false, purgeCache t₂ (purgeCache t₁ cache) ++ [(m, t₁)]) := by
  have hlook :
      (purgeCache t₂ (purgeCache t₁ cache ++ [(m, t₁)])).lookup m = some t₁ := by
    rw [purge_append_keep t₁ t₂ _ m h₂,
      lookup_append_none _ _ _ (lookup_purge_none t₂ m _ h)]
    simp [List.lookup]
  simp [dedupShouldProcess, hlook, purge_append_keep t₁ t₂ _ m h₂]

/-! ## Claim theorems: deduplication (C2, C10) -/

/-- Claim C2: the dedup check first purges every cache entry older than 300
seconds, then treats a cached id as a duplicate (`false`) and inserts a
fresh id with the current timestamp (`true`); consequently two calls for
the same id within 300 s return `true` then `false`, and a third call after
the window has elapsed returns `true` again. -/
theorem dedup_window_claim (cache : DedupCache) (m : String) (t₁ t₂ t₃ : ℚ) :
    (∀ e : String × ℚ, e ∈ purgeCache t₁ cache ↔ e ∈ cache ∧ t₁ - e.2 ≤ 300) ∧
    ((purgeCache t₁ cache).lookup m ≠ none →
      dedupShouldProcess cache m t₁ = (false, purgeCache t₁ cache)) ∧
    ((purgeCache t₁ cache).lookup m = none →
      dedupShouldProcess cache m t₁ = (true, purgeCache t₁ cache ++ [(m, t₁)])) ∧
    ((purgeCache t₁ cache).lookup m = none → t₂ - t₁ ≤ 300 → 300 < t₃ - t₁ →
      (dedupShouldProcess cache m t₁).1 = true ∧
      (dedupShouldProcess (dedupShouldProcess cache m t₁).2 m t₂).1 = false ∧
      (dedupShouldProcess
        (dedupShouldProcess (dedupShouldProcess cache m t₁).2 m t₂).2 m t₃).1 =
        true) := by
  refine ⟨?_, dedup_dup cache m t₁, dedup_fresh cache m t₁, ?_⟩
  · intro e
    simp [purgeCache, List.mem_filter]
  · intro h h₂ h₃
    have e₁ := dedup_fresh cache m t₁ h
    have e₂ := dedup_second_call cache m t₁ t₂ h h₂
    have h₃' : ¬ t₃ - t₁ ≤ 300 := by linarith
    have hlook :
        (purgeCache t₃
          (purgeCache t₂ (purgeCache t₁ cache) ++ [(m, t₁)])).lookup m = none := by
      rw [purge_append_drop t₁ t₃ _ m h₃']
      exact lookup_purge_none t₃ m _ (lookup_purge_none t₂ m _ h)
    have e₃ := dedup_fresh (purgeCache t₂ (purgeCache t₁ cache) ++ [(m, t₁)]) m t₃ hlook
    refine ⟨by rw [e₁], by rw [e₁, e₂], ?_⟩
    rw [e₁, e₂, e₃]

/-- Witness for C2 at a concrete run: a fresh id at time 0, a duplicate at
time 100, and a re-processing at time 400. -/
theorem dedup_window_claim_witness :
    (dedupShouldProcess [] ("m1") 0).1 = true ∧
    (dedupShouldProcess (dedupShouldProcess [] ("m1") 0).2 ("m1") 100).1 = false ∧
    (dedupShouldProcess
      (dedupShouldProcess (dedupShouldProcess [] ("m1") 0).2 ("m1") 100).2
      ("m1") 400).1 = true :=
  (dedup_window_claim [] ("m1") 0 100 400).2.2.2 rfl (by norm_num) (by norm_num)

/-- Claim C10: the background job inserts the message id into the dedup
cache before processing; a processing failure (the caught exception) leaves
the entry in place, so a repeated notification within 300 s is skipped
rather than retried. -/
theorem job_failure_no_retry_claim (cache : DedupCache) (m : String)
    (t₁ t₂ : ℚ) (laterFails : Bool)
    (h : (purgeCache t₁ cache).lookup m = none) (h₂ : t₂ - t₁ ≤ 300) :
    (process_notification_job cache (some m) t₁ true).1 =
      JobOutcome.processingError ∧
    ((process_notification_job cache (some m) t₁ true).2).lookup m = some t₁ ∧
    (process_notification_job (process_notification_job cache (some m) t₁ true).2
        (some m) t₂ laterFails).1 = JobOutcome.skippedDuplicate := by
  have e₁ := dedup_fresh cache m t₁ h
  have e₂ := dedup_second_call cache m t₁ t₂ h h₂
  have hjob₁ : process_notification_job cache (some m) t₁ true =
      (JobOutcome.processingError, purgeCache t₁ cache ++ [(m, t₁)]) := by
    simp [process_notification_job, e₁]
  refine ⟨by rw [hjob₁], ?_, ?_⟩
  · rw [hjob₁]
    show (purgeCache t₁ cache ++ [(m, t₁)]).lookup m = some t₁
    rw [lookup_append_none _ _ _ h]
    simp [List.lookup]
  · rw [hjob₁]
    simp [process_notification_job, e₂]

/-- Witness for C10: a failing job at time 0 still suppresses the retry at
time 100. -/
theorem job_failure_no_retry_claim_witness :
    (process_notification_job [] (some ("m1")) 0 true).1 =
      JobOutcome.processingError ∧
    ((process_notification_job [] (some ("m1")) 0 true).2).lookup ("m1") =
      some 0 ∧
    (process_notification_job (process_notification_job [] (some ("m1")) 0 true).2
        (some ("m1")) 100 false).1 = JobOutcome.skippedDuplicate :=
  job_failure_no_retry_claim [] ("m1") 0 100 false rfl (by norm_num)

/-! ## Claim theorem: webhook clientState validation (C4) -/

/-- Claim C4: every notification record whose `clientState` differs from the
configured secret is silently discarded — no job is dispatched for it and no
error is returned — while the handler still returns 202 after examining all
records; exactly the authenticated records are dispatched. -/
theorem webhook_clientstate_claim (secret : String)
    (notifs : List MsNotification) :
    ∃ jobs : List MsNotification,
      webhook none (Except.ok ⟨some notifs⟩) secret =
        WebhookResponse.accepted jobs ∧
      (∀ n ∈ notifs, n.clientState ≠ some secret → n ∉ jobs) ∧
      (∀ n ∈ jobs, n ∈ notifs ∧ n.clientState = some secret) := by
  refine ⟨notifs.filter (fun n => n.clientState == some secret), rfl, ?_, ?_⟩
  · intro n _ hne hmem
    rw [List.mem_filter] at hmem
    exact hne (by simpa using hmem.2)
  · intro n hn
    rw [List.mem_filter] at hn
    exact ⟨hn.1, by simpa using hn.2⟩

/-- Witness for C4: a record carrying the wrong secret is dropped while the
response is still a 202. -/
theorem webhook_clientstate_claim_witness :
    ∃ jobs : List MsNotification,
      webhook none
          (Except.ok ⟨some [⟨some ("wrong"), some ("m1")⟩]⟩) ("secret") =
        WebhookResponse.accepted jobs ∧
      (⟨some ("wrong"), some ("m1")⟩ : MsNotification) ∉ jobs := by
  obtain ⟨jobs, h1, h2, -⟩ :=
    webhook_clientstate_claim ("secret") [⟨some ("wrong"), some ("m1")⟩]
  exact ⟨jobs, h1, h2 _ (by simp) (by simp)⟩

/-! ## Claim theorems: folder resolution and routing (C5, C6) -/

lemma lookupCategoryFolder_eq_find (s : PyStr) :
    ∀ categories : List CategoryRule,
      lookupCategoryFolder s categories =
        (categories.find? (fun c => decide (c.name = s))).map
          (fun c => c.folder_name) := by
  intro categories
  induction categories with
  | nil => rfl
  | cons c rest ih =>
    by_cases h : c.name = s
    · simp [lookupCategoryFolder, List.find?, h]
    · simp [lookupCategoryFolder, List.find?, h, ih]

/-- Counterexample to C5 as stated: with the empty-string category and a rule
whose name is exactly the empty string, the claim predicts the rule's folder
path, but `if not category_name` (Python truthiness) also catches `""` and
the code resolves no folder. -/
theorem folder_resolution_counterexample :
    get_folder_name_for_category (some []) [⟨[], [], ("Reviewed").data⟩] ≠
      some (("Reviewed").data) := by
  decide

/-- Amended C5: a `null` or empty category resolves to no folder; a
non-empty category resolves by exact name match to the first matching
rule's `folder_name`, and to no folder when no rule matches. -/
theorem folder_resolution_amended (categories : List CategoryRule) :
    get_folder_name_for_category none categories = none ∧
    get_folder_name_for_category (some []) categories = none ∧
    ∀ s : PyStr, s ≠ [] →
      get_folder_name_for_category (some s) categories =
        (categories.find? (fun c => decide (c.name = s))).map
          (fun c => c.folder_name) := by
  refine ⟨rfl, rfl, ?_⟩
  intro s hs
  simp [get_folder_name_for_category, hs, lookupCategoryFolder_eq_find]

/-- Witness for the amended C5 at a concrete rule set. -/
theorem folder_resolution_amended_witness :
    get_folder_name_for_category (some (("DIA").data))
        [⟨("DIA").data, [], ("Inbox/DIA").data⟩] =
      some (("Inbox/DIA").data) := by
  have h := (folder_resolution_amended
    [⟨("DIA").data, [], ("Inbox/DIA").data⟩]).2.2 (("DIA").data) (by decide)
  rw [h]
  decide

/-- Counterexample to C6 as stated: an actionable result whose `task_title`
is the empty string (non-null) and whose category resolves to the empty
folder path.  The claim predicts a task titled `""` in the list named `""`;
the code (Python truthiness on `task_title` and `folder_name`) produces the
fallback title and the default list instead. -/
theorem routing_task_counterexample :
    (route ⟨some (("C").data), true, some [], none, ("S").data⟩
        [⟨("C").data, [], []⟩] (("Hello").data)).task =
      some ⟨("Follow up: Hello").data,
        ("Source Email: Hello\nSummary: S").data, none, none⟩ ∧
    ("Follow up: Hello").data ≠ ([] : PyStr) := by
  constructor
  · decide
  · decide

/-- Amended C6: when a result is actionable exactly one task is built; its
title is `task_title` when that is non-null *and non-empty* and otherwise
`"Follow up: " + subject`; its content carries the subject and summary; its
due date is the result's; the target list name is the leaf segment of the
move-target folder path when a *non-empty* folder path was resolved, and the
default list (no list name) is used otherwise. -/
theorem routing_task_amended (a : AnalysisResult)
    (categories : List CategoryRule) (subject : PyStr) :
    (∀ f, get_folder_name_for_category a.category categories = some f →
      f ≠ [] → (route a categories subject).moveTo = some f) ∧
    ((get_folder_name_for_category a.category categories = none ∨
      get_folder_name_for_category a.category categories = some []) →
      (route a categories subject).moveTo = none) ∧
    (a.is_actionable = false → (route a categories subject).task = none) ∧
    (a.is_actionable = true → ∃ t : TaskSpec,
      (route a categories subject).task = some t ∧
      (∀ s, a.task_title = some s → s ≠ [] → t.title = s) ∧
      ((a.task_title = none ∨ a.task_title = some []) →
        t.title = followUpTitle subject) ∧
      t.content = ("Source Email: ").data ++ subject ++
        ("\nSummary: ").data ++ a.summary ∧
      t.due_date = a.due_date ∧
      (∀ f, (route a categories subject).moveTo = some f →
        t.list_name = some (lastSegment f)) ∧
      ((route a categories subject).moveTo = none → t.list_name = none)) := by
  refine ⟨?_, ?_, ?_, ?_⟩
  · intro f hf hne
    simp [route, hf, hne]
  · intro h
    rcases h with h | h <;> simp [route, h]
  · intro h
    simp [route, h]
  · intro hact
    refine ⟨⟨(match a.task_title with
        | some t => if t = [] then followUpTitle subject else t
        | none => followUpTitle subject),
      ("Source Email: ").data ++ subject ++ ("\nSummary: ").data ++ a.summary,
      ((route a categories subject).moveTo).map lastSegment,
      a.due_date⟩, ?_, ?_, ?_, rfl, rfl, ?_, ?_⟩
    · simp [route, hact]
    · intro s hs hne
      simp [hs, hne]
    · intro h
      rcases h with h | h <;> simp [h]
    · intro f hf
      simp [hf]
    · intro h
      simp [h]

/-- Witness for the amended C6: an actionable result with a null title and
no resolvable category yields the fallback-titled task in the default
list. -/
theorem routing_task_amended_witness :
    ∃ t : TaskSpec,
      (route ⟨none, true, none, none, ("S").data⟩ [] (("Hi").data)).task =
        some t ∧
      t.title = followUpTitle (("Hi").data) ∧ t.list_name = none := by
  obtain ⟨t, h1, -, h3, -, -, -, h7⟩ :=
    (routing_task_amended ⟨none, true, none, none, ("S").data⟩ [] (("Hi").data)).2.2.2
      rfl
  exact ⟨t, h1, h3 (Or.inl rfl), h7 rfl⟩

/-! ## Claim theorem: truncation ceilings (C3) -/

/-- Claim C3: before submission to the classification model, a cleaned body
longer than 15000 characters is cut to its first 15000 characters (exactly
15000 kept) with the visible truncation marker appended, a body of at most
15000 characters is untouched, and the fully assembled prompt consists of at
most 20000 characters of content followed by nothing or the total
truncation marker. -/
theorem truncation_claim (subject cleanedBody imagesText : PyStr) :
    (cleanedBody.length ≤ 15000 → truncateBody cleanedBody = cleanedBody) ∧
    (15000 < cleanedBody.length →
      truncateBody cleanedBody = cleanedBody.take 15000 ++ truncationMarker ∧
      (cleanedBody.take 15000).length = 15000) ∧
    (∃ kept extra,
      buildFullContent subject cleanedBody imagesText = kept ++ extra ∧
      kept.length ≤ 20000 ∧
      (extra = [] ∨ extra = totalTruncationMarker)) := by
  refine ⟨?_, ?_, ?_⟩
  · intro h
    unfold truncateBody
    rw [if_neg (by omega)]
  · intro h
    refine ⟨by unfold truncateBody; rw [if_pos h], ?_⟩
    rw [List.length_take]
    omega
  · unfold buildFullContent capTotal
    by_cases h :
        20000 < (assembleContent subject (truncateBody cleanedBody) imagesText).length
    · refine ⟨_, _, by rw [if_pos h], ?_, Or.inr rfl⟩
      rw [List.length_take]
      omega
    · exact ⟨assembleContent subject (truncateBody cleanedBody) imagesText, [],
        by rw [if_neg h, List.append_nil], by omega, Or.inl rfl⟩

/-- Witness for C3: a 16000-character body is cut to 15000 characters plus
the marker; a 14000-character body is untouched. -/
theorem truncation_claim_witness :
    truncateBody (List.replicate 16000 'a') =
      List.replicate 15000 'a' ++ truncationMarker ∧
    truncateBody (List.replicate 14000 'a') = List.replicate 14000 'a' := by
  constructor
  · have h := ((truncation_claim [] (List.replicate 16000 'a') []).2.1
      (by rw [List.length_replicate]; norm_num)).1
    rw [h, List.take_replicate]
    norm_num
  · exact (truncation_claim [] (List.replicate 14000 'a') []).1
      (by rw [List.length_replicate]; norm_num)

/-! ## Claim theorem: idempotent folder materialization (C7) -/

lemma find?_append_left {α : Type} (p : α → Bool) :
    ∀ (l₁ l₂ : List α) (a : α),
      l₁.find? p = some a → (l₁ ++ l₂).find? p = some a := by
  intro l₁
  induction l₁ with
  | nil => intro l₂ a h; exact absurd h (by simp)
  | cons x rest ih =>
    intro l₂ a h
    by_cases hx : p x = true
    · simp only [List.find?, hx] at h ⊢
      exact h
    · rw [Bool.not_eq_true] at hx
      simp only [List.find?, hx, List.cons_append] at h ⊢
      exact ih l₂ a h

lemma find?_append_right {α : Type} (p : α → Bool) :
    ∀ (l₁ l₂ : List α), l₁.find? p = none →
      (l₁ ++ l₂).find? p = l₂.find? p := by
  intro l₁
  induction l₁ with
  | nil => intro l₂ _; rfl
  | cons x rest ih =>
    intro l₂ h
    by_cases hx : p x = true
    · simp [List.find?, hx] at h
    · rw [Bool.not_eq_true] at hx
      simp only [List.find?, hx, List.cons_append] at h ⊢
      exact ih l₂ h

lemma findChildFolder_extend (s s' : MailboxState) (ext : List MailFolder)
    (cur : Nat) (p : PyStr) (fid : Nat)
    (hfold : s'.folders = s.folders ++ ext)
    (h : findChildFolder s cur p = some fid) :
    findChildFolder s' cur p = some fid := by
  unfold findChildFolder at h ⊢
  cases hf : s.folders.find?
      (fun f => decide (f.parent = cur) && decide (f.name = p)) with
  | none => rw [hf] at h; simp at h
  | some f =>
    rw [hf] at h
    rw [hfold, find?_append_left _ _ _ _ hf]
    exact h

lemma getFolderIdAux_extends :
    ∀ (parts : List PyStr) (s : MailboxState) (cur : Nat),
      ∃ ext, (getFolderIdAux s cur parts).state.folders = s.folders ++ ext := by
  intro parts
  induction parts with
  | nil => intro s cur; exact ⟨[], by simp [getFolderIdAux]⟩
  | cons p rest ih =>
    intro s cur
    cases hf : findChildFolder s cur p with
    | some fid => simpa [getFolderIdAux, hf] using ih s fid
    | none =>
      obtain ⟨ext, hext⟩ :=
        ih ⟨s.folders ++ [⟨s.nextId, cur, p⟩], s.nextId + 1⟩ s.nextId
      refine ⟨⟨s.nextId, cur, p⟩ :: ext, ?_⟩
      simp only [getFolderIdAux, hf, createChildFolder]
      rw [hext]
      simp

lemma findChildFolder_after_create (s : MailboxState) (cur : Nat) (p : PyStr)
    (h : findChildFolder s cur p = none) :
    findChildFolder ⟨s.folders ++ [⟨s.nextId, cur, p⟩], s.nextId + 1⟩ cur p =
      some s.nextId := by
  unfold findChildFolder at h ⊢
  cases hf : s.folders.find?
      (fun f => decide (f.parent = cur) && decide (f.name = p)) with
  | some f => rw [hf] at h; simp at h
  | none =>
    rw [find?_append_right _ _ _ hf]
    simp [List.find?]

lemma getFolderIdAux_idem :
    ∀ (parts : List PyStr) (s : MailboxState) (cur : Nat),
      getFolderIdAux (getFolderIdAux s cur parts).state cur parts =
        ⟨(getFolderIdAux s cur parts).folderId,
         (getFolderIdAux s cur parts).state, 0⟩ := by
  intro parts
  induction parts with
  | nil => intro s cur; rfl
  | cons p rest ih =>
    intro s cur
    cases hf : findChildFolder s cur p with
    | some fid =>
      have h1 : getFolderIdAux s cur (p :: rest) = getFolderIdAux s fid rest := by
        simp [getFolderIdAux, hf]
      have hstable :
          findChildFolder (getFolderIdAux s fid rest).state cur p = some fid := by
        obtain ⟨ext, hext⟩ := getFolderIdAux_extends rest s fid
        exact findChildFolder_extend s _ ext cur p fid hext hf
      rw [h1]
      have h2 : getFolderIdAux (getFolderIdAux s fid rest).state cur (p :: rest) =
          getFolderIdAux (getFolderIdAux s fid rest).state fid rest := by
        simp [getFolderIdAux, hstable]
      rw [h2, ih s fid]
    | none =>
      have h1 : getFolderIdAux s cur (p :: rest) =
          ⟨(getFolderIdAux ⟨s.folders ++ [⟨s.nextId, cur, p⟩], s.nextId + 1⟩
              s.nextId rest).folderId,
           (getFolderIdAux ⟨s.folders ++ [⟨s.nextId, cur, p⟩], s.nextId + 1⟩
              s.nextId rest).state,
           (getFolderIdAux ⟨s.folders ++ [⟨s.nextId, cur, p⟩], s.nextId + 1⟩
              s.nextId rest).createCalls + 1⟩ := by
        simp [getFolderIdAux, hf, createChildFolder]
      have hstable :
          findChildFolder (getFolderIdAux
              ⟨s.folders ++ [⟨s.nextId, cur, p⟩], s.nextId + 1⟩
              s.nextId rest).state cur p = some s.nextId := by
        obtain ⟨ext, hext⟩ := getFolderIdAux_extends rest
          ⟨s.folders ++ [⟨s.nextId, cur, p⟩], s.nextId + 1⟩ s.nextId
        exact findChildFolder_extend
          ⟨s.folders ++ [⟨s.nextId, cur, p⟩], s.nextId + 1⟩ _ ext cur p s.nextId
          hext (findChildFolder_after_create s cur p hf)
      rw [h1]
      have h2 : getFolderIdAux (getFolderIdAux
            ⟨s.folders ++ [⟨s.nextId, cur, p⟩], s.nextId + 1⟩
            s.nextId rest).state cur (p :: rest) =
          getFolderIdAux (getFolderIdAux
            ⟨s.folders ++ [⟨s.nextId, cur, p⟩], s.nextId + 1⟩
            s.nextId rest).state s.nextId rest := by
        simp [getFolderIdAux, hstable]
      rw [h2]
      exact ih ⟨s.folders ++ [⟨s.nextId, cur, p⟩], s.nextId + 1⟩ s.nextId

lemma getFolderIdAux_pairwise :
    ∀ (parts : List PyStr) (s : MailboxState) (cur : Nat),
      s.folders.Pairwise
        (fun f g => ¬ (f.parent = g.parent ∧ f.name = g.name)) →
      ((getFolderIdAux s cur parts).state.folders).Pairwise
        (fun f g => ¬ (f.parent = g.parent ∧ f.name = g.name)) := by
  intro parts
  induction parts with
  | nil => intro s cur h; exact h
  | cons p rest ih =>
    intro s cur h
    cases hf : findChildFolder s cur p with
    | some fid =>
      have h1 : getFolderIdAux s cur (p :: rest) = getFolderIdAux s fid rest := by
        simp [getFolderIdAux, hf]
      rw [h1]
      exact ih s fid h
    | none =>
      have h1 : (getFolderIdAux s cur (p :: rest)).state =
          (getFolderIdAux ⟨s.folders ++ [⟨s.nextId, cur, p⟩], s.nextId + 1⟩
            s.nextId rest).state := by
        simp [getFolderIdAux, hf, createChildFolder]
      rw [h1]
      refine ih _ s.nextId ?_
      rw [List.pairwise_append]
      refine ⟨h, by simp, ?_⟩
      intro a ha b hb
      have hb' : b = ⟨s.nextId, cur, p⟩ := by simpa using hb
      subst hb'
      have hfind : s.folders.find?
          (fun f => decide (f.parent = cur) && decide (f.name = p)) = none := by
        unfold findChildFolder at hf
        cases hff : s.folders.find?
            (fun f => decide (f.parent = cur) && decide (f.name = p)) with
        | none => rfl
        | some _ => rw [hff] at hf; simp at hf
      have hnone : ∀ f ∈ s.folders,
          ¬ ((decide (f.parent = cur) && decide (f.name = p)) = true) :=
        fun f hfmem => List.find?_eq_none.mp hfind f hfmem
      intro hcontra
      exact hnone a ha (by simp [hcontra.1, hcontra.2])

/-- Claim C7: resolving a slash-delimited folder path walks it one segment
at a time from the mailbox root, creating a segment only when absent;
resolving the same path a second time returns the same folder id, leaves
the folder store unchanged, issues zero create calls, and never produces
duplicate sibling folders. -/
theorem folder_materialization_claim (s : MailboxState) (path : PyStr) :
    get_folder_id (get_folder_id s path).state path =
      ⟨(get_folder_id s path).folderId, (get_folder_id s path).state, 0⟩ ∧
    (SiblingNamesUnique s → SiblingNamesUnique (get_folder_id s path).state) := by
  constructor
  · exact getFolderIdAux_idem (splitSlash path) s rootFolderId
  · intro h
    exact getFolderIdAux_pairwise (splitSlash path) s rootFolderId h

/-- Witness for C7: materializing `"Inbox/DIA"` in an empty mailbox keeps
sibling names unique, and the second resolution issues no create call. -/
theorem folder_materialization_claim_witness :
    SiblingNamesUnique (get_folder_id ⟨[], 1⟩ (("Inbox/DIA").data)).state ∧
    (get_folder_id (get_folder_id ⟨[], 1⟩ (("Inbox/DIA").data)).state
        (("Inbox/DIA").data)).createCalls = 0 := by
  have h := folder_materialization_claim ⟨[], 1⟩ (("Inbox/DIA").data)
  exact ⟨h.2 (by decide), by rw [h.1]⟩

/-! ## Claim theorems: due dates and reminders (C8) -/

lemma daysInMonth_pos (y m : Nat) : 1 ≤ daysInMonth y m := by
  unfold daysInMonth
  split
  · split <;> norm_num
  all_goals norm_num

lemma daysBeforeMonth_succ (y m : Nat) (h : 1 ≤ m) :
    daysBeforeMonth y (m + 1) = daysBeforeMonth y m + daysInMonth y m := by
  obtain ⟨k, rfl⟩ : ∃ k, m = k + 1 := ⟨m - 1, by omega⟩
  rfl

lemma daysBeforeMonth_twelve (y : Nat) :
    daysBeforeMonth y 12 + daysInMonth y 12 =
      (if isLeap y then 366 else 365) := by
  cases h : isLeap y <;>
    simp [daysBeforeMonth, daysInMonth, h]

lemma parseDateYMD_valid (s : PyStr) (dt : YMDDate)
    (h : parseDateYMD s = some dt) : ValidYMD dt := by
  unfold parseDateYMD at h
  split at h
  · split at h
    · split at h
      · split at h
        · rename_i hc
          cases h
          exact ⟨hc.2.2.2.2.2.2.1, hc.2.2.2.2.2.2.2.1, hc.2.2.2.2.2.2.2.2.1,
            hc.2.2.2.2.2.2.2.2.2.1, hc.2.2.2.2.2.2.2.2.2.2⟩
        · exact absurd h (by simp)
    · exact absurd h (by simp)
  · exact absurd h (by simp)

lemma prevDay_valid (x p : YMDDate) (hv : ValidYMD x)
    (h : prevDay x = some p) : ValidYMD p := by
  obtain ⟨hy, hm1, hm2, hd1, hd2⟩ := hv
  unfold prevDay at h
  split_ifs at h with h1 h2 h3
  · cases h
    refine ⟨hy, hm1, hm2, ?_, ?_⟩
    · show 1 ≤ x.day - 1
      omega
    · show x.day - 1 ≤ daysInMonth x.year x.month
      omega
  · cases h
    refine ⟨hy, ?_, ?_, ?_, ?_⟩
    · show 1 ≤ x.month - 1
      omega
    · show x.month - 1 ≤ 12
      omega
    · show 1 ≤ daysInMonth x.year (x.month - 1)
      exact daysInMonth_pos _ _
    · show daysInMonth x.year (x.month - 1) ≤ daysInMonth x.year (x.month - 1)
      exact le_refl _
  · cases h
    refine ⟨?_, ?_, ?_, ?_, ?_⟩
    · show 1 ≤ x.year - 1
      omega
    · show (1 : Nat) ≤ 12
      norm_num
    · show (12 : Nat) ≤ 12
      norm_num
    · show (1 : Nat) ≤ 31
      norm_num
    · show (31 : Nat) ≤ daysInMonth (x.year - 1) 12
      exact Nat.le_refl 31

lemma prevDay_ordinal (x p : YMDDate) (hv : ValidYMD x)
    (h : prevDay x = some p) : dateOrdinal p + 1 = dateOrdinal x := by
  obtain ⟨hy, hm1, hm2, hd1, hd2⟩ := hv
  unfold prevDay at h
  split_ifs at h with h1 h2 h3
  · cases h
    show daysBeforeYear x.year + daysBeforeMonth x.year x.month +
        (x.day - 1) + 1 =
      daysBeforeYear x.year + daysBeforeMonth x.year x.month + x.day
    omega
  · cases h
    show daysBeforeYear x.year + daysBeforeMonth x.year (x.month - 1) +
        daysInMonth x.year (x.month - 1) + 1 =
      daysBeforeYear x.year + daysBeforeMonth x.year x.month + x.day
    have hstep := daysBeforeMonth_succ x.year (x.month - 1) (by omega)
    rw [show (x.month - 1) + 1 = x.month from by omega] at hstep
    omega
  · cases h
    show daysBeforeYear (x.year - 1) + daysBeforeMonth (x.year - 1) 12 +
        31 + 1 =
      daysBeforeYear x.year + daysBeforeMonth x.year x.month + x.day
    have hd : x.day = 1 := by omega
    have hm : x.month = 1 := by omega
    have h12 := daysBeforeMonth_twelve (x.year - 1)
    have h31 : daysInMonth (x.year - 1) 12 = 31 := rfl
    rw [h31] at h12
    have hm1' : daysBeforeMonth x.year 1 = 0 := rfl
    have hYstep : daysBeforeYear ((x.year - 2) + 2) =
        daysBeforeYear ((x.year - 2) + 1) +
          (if isLeap ((x.year - 2) + 1) then 366 else 365) := rfl
    rw [show (x.year - 2) + 2 = x.year from by omega,
      show (x.year - 2) + 1 = x.year - 1 from by omega] at hYstep
    rw [hd, hm, hm1', hYstep, ← h12]
    omega

lemma subTwoDays_ordinal (x r : YMDDate) (hv : ValidYMD x)
    (h : subTwoDays x = some r) : dateOrdinal r + 2 = dateOrdinal x := by
  unfold subTwoDays at h
  cases hm : prevDay x with
  | none => rw [hm] at h; exact absurd h (by simp)
  | some mid =>
    rw [hm] at h
    simp only [Option.some_bind] at h
    have h1 := prevDay_ordinal x mid hv hm
    have hvm := prevDay_valid x mid hv hm
    have h2 := prevDay_ordinal mid r hvm h
    omega

/-- Counterexample to C8 as stated: the due date `"0001-01-02"` parses, but
`datetime(1, 1, 2) - timedelta(days=2)` underflows Python's calendar and
raises `OverflowError`, which `except ValueError` does not catch — so no
reminder is scheduled *and* the task is not created. -/
theorem todo_reminder_counterexample :
    create_todo_task (("T").data) (("C").data)
        (some (("0001-01-02").data)) = Except.error () := by
  rfl

/-- Amended C8: for a task created with a truthy due date, if the date
parses and lies at least two days after the calendar minimum, a reminder is
scheduled exactly two days before the due date at the fixed time 14:00:00
UTC and the task is created; if the due date cannot be parsed, only the
reminder is omitted and the task is still created. -/
theorem todo_reminder_amended (title content : PyStr) (due : PyStr)
    (hne : due ≠ []) :
    (parseDateYMD due = none →
      create_todo_task title content (some due) =
        Except.ok ⟨title, content,
          some ⟨due ++ ("T12:00:00").data, ("UTC").data⟩, none⟩) ∧
    (∀ dt r, parseDateYMD due = some dt → subTwoDays dt = some r →
      create_todo_task title content (some due) =
        Except.ok ⟨title, content,
          some ⟨due ++ ("T12:00:00").data, ("UTC").data⟩,
          some ⟨isoDate r ++ ("T14:00:00").data, ("UTC").data⟩⟩ ∧
      dateOrdinal r + 2 = dateOrdinal dt) := by
  constructor
  · intro hp
    simp [create_todo_task, hne, hp]
  · intro dt r hp hs
    refine ⟨by simp [create_todo_task, hne, hp, hs], ?_⟩
    exact subTwoDays_ordinal dt r (parseDateYMD_valid due dt hp) hs

/-- Witness for the amended C8: a due date of 2025-03-01 yields a reminder
on 2025-02-27 at 14:00 UTC, and an unparseable due date still creates the
task, without a reminder. -/
theorem todo_reminder_amended_witness :
    create_todo_task (("T").data) (("C").data) (some (("2025-03-01").data)) =
      Except.ok ⟨("T").data, ("C").data,
        some ⟨("2025-03-01T12:00:00").data, ("UTC").data⟩,
        some ⟨("2025-02-27T14:00:00").data, ("UTC").data⟩⟩ ∧
    create_todo_task (("T").data) (("C").data) (some (("not-a-date").data)) =
      Except.ok ⟨("T").data, ("C").data,
        some ⟨("not-a-dateT12:00:00").data, ("UTC").data⟩, none⟩ := by
  constructor
  · have h := (todo_reminder_amended (("T").data) (("C").data)
      (("2025-03-01").data) (by decide)).2 ⟨2025, 3, 1⟩ ⟨2025, 2, 27⟩
      (by decide) (by decide)
    rw [h.1]
    rfl
  · exact (todo_reminder_amended (("T").data) (("C").data)
      (("not-a-date").data) (by decide)).1 (by decide)

/-! ## Claim theorem: subscription retry loop (C9) -/

lemma subscribeGo_spec (o : Nat → Except Unit (Option Subscription)) :
    ∀ (fuel attempt : Nat), 1 ≤ attempt → attempt ≤ maxRetries →
      attempt + fuel = maxRetries + 1 →
      (1 ≤ (subscribeGo o attempt fuel).attemptsMade ∧
       (subscribeGo o attempt fuel).attemptsMade ≤ fuel) ∧
      (subscribeGo o attempt fuel).delays =
        (List.range' attempt ((subscribeGo o attempt fuel).attemptsMade - 1)).map
          (fun a => baseDelay * a) ∧
      ((∀ a, o a = .error () ∨ o a = .ok none) →
        (subscribeGo o attempt fuel).result = none ∧
        (subscribeGo o attempt fuel).attemptsMade = fuel) := by
  intro fuel
  induction fuel with
  | zero =>
    intro attempt h1 h2 h3
    exfalso
    unfold maxRetries at h2 h3
    omega
  | succ fuel ih =>
    intro attempt h1 h2 h3
    cases ho : o attempt with
    | ok osub =>
      cases osub with
      | some sub =>
        refine ⟨⟨?_, ?_⟩, ?_, ?_⟩
        · simp [subscribeGo, ho]
        · simp [subscribeGo, ho]
        · simp [subscribeGo, ho]
        · intro hall
          rcases hall attempt with hc | hc <;> rw [ho] at hc <;> exact absurd hc (by simp)
      | none =>
        by_cases hlt : attempt < maxRetries
        · have ih' := ih (attempt + 1) (by omega) (by omega) (by omega)
          have hred : subscribeGo o attempt (fuel + 1) =
              ⟨(subscribeGo o (attempt + 1) fuel).result,
               baseDelay * attempt :: (subscribeGo o (attempt + 1) fuel).delays,
               (subscribeGo o (attempt + 1) fuel).attemptsMade + 1⟩ := by
            simp [subscribeGo, ho, hlt]
          rw [hred]
          dsimp only
          obtain ⟨⟨ha1, ha2⟩, hd, hfail⟩ := ih'
          refine ⟨⟨by omega, by omega⟩, ?_, ?_⟩
          · obtain ⟨k, hk⟩ : ∃ k, (subscribeGo o (attempt + 1) fuel).attemptsMade =
                k + 1 :=
              ⟨(subscribeGo o (attempt + 1) fuel).attemptsMade - 1, by omega⟩
            rw [hd, hk]
            simp [List.range']
          · intro hall
            obtain ⟨hr, ha⟩ := hfail hall
            exact ⟨hr, by omega⟩
        · have ha5 : attempt = maxRetries := by omega
          have hred : subscribeGo o attempt (fuel + 1) = ⟨none, [], 1⟩ := by
            simp [subscribeGo, ho, hlt]
          rw [hred]
          dsimp only
          have hfuel : fuel = 0 := by unfold maxRetries at h3 ha5; omega
          exact ⟨⟨le_refl 1, by omega⟩, by simp [List.range'],
            fun _ => ⟨rfl, by omega⟩⟩
    | error e =>
      by_cases hlt : attempt < maxRetries
      · have ih' := ih (attempt + 1) (by omega) (by omega) (by omega)
        have hred : subscribeGo o attempt (fuel + 1) =
            ⟨(subscribeGo o (attempt + 1) fuel).result,
             baseDelay * attempt :: (subscribeGo o (attempt + 1) fuel).delays,
             (subscribeGo o (attempt + 1) fuel).attemptsMade + 1⟩ := by
          simp [subscribeGo, ho, hlt]
        rw [hred]
        dsimp only
        obtain ⟨⟨ha1, ha2⟩, hd, hfail⟩ := ih'
        refine ⟨⟨by omega, by omega⟩, ?_, ?_⟩
        · obtain ⟨k, hk⟩ : ∃ k, (subscribeGo o (attempt + 1) fuel).attemptsMade =
              k + 1 :=
            ⟨(subscribeGo o (attempt + 1) fuel).attemptsMade - 1, by omega⟩
          rw [hd, hk]
          simp [List.range']
        · intro hall
          obtain ⟨hr, ha⟩ := hfail hall
          exact ⟨hr, by omega⟩
      · have ha5 : attempt = maxRetries := by omega
        have hred : subscribeGo o attempt (fuel + 1) = ⟨none, [], 1⟩ := by
          simp [subscribeGo, ho, hlt]
        rw [hred]
        dsimp only
        have hfuel : fuel = 0 := by unfold maxRetries at h3 ha5; omega
        exact ⟨⟨le_refl 1, by omega⟩, by simp [List.range'],
          fun _ => ⟨rfl, by omega⟩⟩

/-- Claim C9: subscription creation is attempted at most 5 times, every
delay slept between attempts equals `base_delay * attempt`, and when every
attempt fails (exception or falsy result) the loop makes exactly 5 attempts,
sleeps 5, 10, 15, 20 seconds, and returns normally with no subscription —
the process keeps running. -/
theorem subscription_retry_claim
    (oracle : Nat → Except Unit (Option Subscription)) :
    (create_subscription_with_retry oracle).attemptsMade ≤ 5 ∧
    (create_subscription_with_retry oracle).delays =
      (List.range' 1 ((create_subscription_with_retry oracle).attemptsMade - 1)).map
        (fun a => baseDelay * a) ∧
    ((∀ a, oracle a = .error () ∨ oracle a = .ok none) →
      create_subscription_with_retry oracle =
        ⟨none, [baseDelay * 1, baseDelay * 2, baseDelay * 3, baseDelay * 4],
          5⟩) := by
  have h := subscribeGo_spec oracle maxRetries 1 (le_refl 1)
    (by unfold maxRetries; omega) (by omega)
  obtain ⟨⟨ha1, ha2⟩, hd, hfail⟩ := h
  refine ⟨?_, hd, ?_⟩
  · exact le_trans ha2 (by unfold maxRetries; omega)
  · intro hall
    obtain ⟨hr, ha⟩ := hfail hall
    have heta : create_subscription_with_retry oracle =
        ⟨(subscribeGo oracle 1 maxRetries).result,
         (subscribeGo oracle 1 maxRetries).delays,
         (subscribeGo oracle 1 maxRetries).attemptsMade⟩ := rfl
    rw [heta, hr, hd, ha]
    simp [maxRetries, List.range']

/-- Witness for C9: with an oracle that always raises, the loop returns no
subscription after exactly 5 attempts with delays 5, 10, 15, 20. -/
theorem subscription_retry_claim_witness :
    create_subscription_with_retry (fun _ => Except.error ()) =
      ⟨none, [baseDelay * 1, baseDelay * 2, baseDelay * 3, baseDelay * 4], 5⟩ :=
  (subscription_retry_claim (fun _ => Except.error ())).2.2
    (fun _ => Or.inl rfl)

/-! ## Claim theorem: classification fallback (C1) -/

/-- Claim C1: whenever the classification stage fails — the model call
raises, or `json.loads` fails on its response (malformed or non-JSON
content) — `analyze_email` does not raise but returns the fixed fallback
result `category="Important"`, `is_actionable=false`, `task_title=null`,
`due_date=null`, `summary="Error analyzing email (LLM failure)."`, which is
a structurally valid `AnalysisResult`.  (The embedding is a total function,
so no exception can escape.) -/
theorem analyze_fallback_claim (o : LLMOracle) (config : LLMConfig)
    (subject body : PyStr) (images : List ImageAttachment)
    (hfail :
      o.classify (buildClassificationPrompt config)
          (buildFullContent subject (removeSignature o body)
            (joinSep (("\n\n").data) (describeImages o images))) =
        .error () ∨
      ∀ c, o.classify (buildClassificationPrompt config)
          (buildFullContent subject (removeSignature o body)
            (joinSep (("\n\n").data) (describeImages o images))) = .ok c →
        o.loads c = none) :
    analyze_email o config subject body images =
      JValue.obj
        [(("category"), JValue.str ("Important")),
         (("is_actionable"), JValue.bool false),
         (("task_title"), JValue.null),
         (("due_date"), JValue.null),
         (("summary"), JValue.str ("Error analyzing email (LLM failure)."))] ∧
    structurallyValidAnalysis (analyze_email o config subject body images) =
      true := by
  have key : analyze_email o config subject body images = fallbackAnalysis := by
    show classifyStage o (buildClassificationPrompt config)
        (buildFullContent subject (removeSignature o body)
          (joinSep (("\n\n").data) (describeImages o images))) =
      fallbackAnalysis
    rcases hfail with h | h
    · simp [classifyStage, h]
    · cases hc : o.classify (buildClassificationPrompt config)
          (buildFullContent subject (removeSignature o body)
            (joinSep (("\n\n").data) (describeImages o images))) with
      | error e => simp [classifyStage, hc]
      | ok c => simp [classifyStage, hc, h c hc]
  refine ⟨by rw [key]; rfl, by rw [key]; rfl⟩

/-- Witness for C1: an oracle whose classification call always raises leads
to the fallback result for a concrete email. -/
theorem analyze_fallback_claim_witness :
    analyze_email
        ⟨fun _ => Except.error (), fun _ => Except.error (),
         fun _ _ => Except.error (), fun _ => none⟩
        ⟨InstructionsValue.ofList [], []⟩
        (("Hi").data) (("Hello there").data) [] =
      JValue.obj
        [(("category"), JValue.str ("Important")),
         (("is_actionable"), JValue.bool false),
         (("task_title"), JValue.null),
         (("due_date"), JValue.null),
         (("summary"), JValue.str ("Error analyzing email (LLM failure)."))] :=
  (analyze_fallback_claim
    ⟨fun _ => Except.error (), fun _ => Except.error (),
     fun _ _ => Except.error (), fun _ => none⟩
    ⟨InstructionsValue.ofList [], []⟩
    (("Hi").data) (("Hello there").data) [] (Or.inl rfl)).1

end MailOrganizer
